import Mathlib

/-!
# Verification of the `ai_workflow_evaluator` core

Shallow embedding of the episode data model and the scoring/evaluation
engine of `ai_workflow_evaluator` (modules `episode.py`, `invariants.py`,
`scoring.py`, with the Metrics Sink of `metrics.py` modelled as an event
trace), together with proofs settling the specification claims.

Conventions used by the embedding:
* JSON-like runtime values become the inductive type `Val`; Python numbers
  (`bool`/`int`/`float`) are modelled as exact rationals carrying their
  runtime-type tag, since Python's `isinstance(v, (int, float))` is true for
  all three (`bool` is a subclass of `int`) and `==` compares them
  numerically (`True == 1 == 1.0`).
* Python dicts become association lists with distinct keys (a Python dict
  cannot hold a key twice); `pyEq` implements Python `==`, with dict
  equality by length plus key lookup, exactly as CPython compares dicts,
  so it is insensitive to insertion order.
* Python floats are modelled as exact rationals; fallible code returns
  `Except`; `datetime.utcnow()` and `uuid.uuid4()` are impure inputs and
  become explicit `now` / `freshId` parameters.
-/

/-- The runtime type tag of a Python number: `bool`, `int` or `float`.
`type(v).__name__` distinguishes them, while `==` and
`isinstance(v, (int, float))` identify them. -/
inductive NumTy where
  | nbool : NumTy
  | nint : NumTy
  | nfloat : NumTy
deriving DecidableEq, Repr

/-- A JSON-like Python runtime value: `None`, a number (exact rational plus
runtime-type tag), a string, a list, or a string-keyed dict. -/
inductive Val where
  | vnone : Val
  | vnum : ℚ → NumTy → Val
  | vstr : String → Val
  | vlist : List Val → Val
  | vdict : List (String × Val) → Val
deriving Repr

/-- A Python dict with string keys, as passed around by the evaluator. -/
abbrev PyDict := List (String × Val)

/-- Python `d[k]` / `d.get(k)` on a string-keyed dict: the value at the
first entry with key `k`. -/
def lookupVal (k : String) (d : PyDict) : Option Val :=
  (d.find? (fun kv => kv.1 = k)).map (·.2)

/-- Python `k in d` on a string-keyed dict. -/
def keyMem (k : String) (d : PyDict) : Bool := d.any (fun kv => kv.1 = k)

mutual
/-- Python `==` on runtime values: numbers compare by numeric value with the
runtime-type tag ignored (`True == 1 == 1.0`), lists compare pointwise, and
dicts compare by equal size and, for every entry of the left dict, a
lookup in the right dict returning a `==`-equal value — CPython's dict
comparison, insensitive to insertion order. -/
def pyEq : Val → Val → Bool
  | .vnone, b => match b with | .vnone => true | _ => false
  | .vnum q _, b => match b with | .vnum q' _ => q = q' | _ => false
  | .vstr s, b => match b with | .vstr s' => s = s' | _ => false
  | .vlist l, b => match b with | .vlist l' => pyEqList l l' | _ => false
  | .vdict d, b =>
    match b with
    | .vdict d' => d.length = d'.length && pyEqSub d d'
    | _ => false

/-- Pointwise Python `==` on two lists of values. -/
def pyEqList : List Val → List Val → Bool
  | [], l' => l'.isEmpty
  | a :: as, l' =>
    match l' with
    | [] => false
    | b :: bs => pyEq a b && pyEqList as bs

/-- For every entry of the first dict: its key is present in the second
dict with a Python-equal value. -/
def pyEqSub : List (String × Val) → PyDict → Bool
  | [], _ => true
  | (k, v) :: rest, d' =>
    (match lookupVal k d' with
     | some v' => pyEq v v'
     | none => false) && pyEqSub rest d'
end

/-- Python `==` on two dicts (as in `expected == actual`). -/
def pyDictEq (a b : PyDict) : Bool := pyEq (.vdict a) (.vdict b)

/-- Python `v is None`. -/
def Val.isNone : Val → Bool
  | .vnone => true
  | _ => false

/-- Python `isinstance(v, (int, float))`; true for `bool`/`int`/`float`
values since `bool` is a subclass of `int`. -/
def Val.isNum : Val → Bool
  | .vnum _ _ => true
  | _ => false

/-- Python `type(v).__name__`. -/
def typeName : Val → String
  | .vnone => "NoneType"
  | .vnum _ .nbool => "bool"
  | .vnum _ .nint => "int"
  | .vnum _ .nfloat => "float"
  | .vstr _ => "str"
  | .vlist _ => "list"
  | .vdict _ => "dict"

/-- `statistics.mean` on a list of numbers (exact, as rationals). -/
def listMean (l : List ℚ) : ℚ := l.sum / l.length

/--
`EpisodeEvaluator._compute_match` (scoring.py, lines 142–163): 0.5 when
either mapping is empty; 1.0 when the dicts are Python-equal; otherwise
count the keys of `expected` that are present in `actual` with Python-equal
values, compare with `max(len(expected), len(actual))`, and return
0.0 / 1.0 / 0.5 for none / all / some of them matching.
-/
def computeMatch (expected actual : PyDict) : ℚ :=
  if expected.isEmpty || actual.isEmpty then 1/2
  else if pyDictEq expected actual then 1
  else
    let matching_keys :=
      (expected.filter (fun kv =>
        keyMem kv.1 actual &&
          match lookupVal kv.1 actual with
          | some v => pyEq kv.2 v
          | none => false)).length
    let total_keys := max expected.length actual.length
    if matching_keys = 0 then 0
    else if matching_keys = total_keys then 1
    else 1/2

/-- The per-key body of the loop of `_compute_drift` (scoring.py, lines
182–198), for a key present in `actual`: when both values are numeric the
relative error capped at 1.0 (with the zero-expected special case),
otherwise 0.0 or 1.0 by Python equality.  The `except (TypeError,
ZeroDivisionError)` arm of the source is unreachable on these JSON-like
values: `==` never raises on them and the division is guarded by
`expected_val == 0`; its handler returns the same 1.0-unless-equal result
as the non-numeric arm. -/
def driftContrib (expected_val actual_val : Val) : ℚ :=
  match expected_val, actual_val with
  | .vnum qe _, .vnum qa _ =>
    if qe = 0 then (if qa ≠ 0 then 1 else 0)
    else min 1 (|qa - qe| / |qe|)
  | ve, va => if pyEq ve va then 0 else 1

/--
`EpisodeEvaluator._compute_drift` (scoring.py, lines 165–200): 0.5 when
`expected` is empty; otherwise the mean over the entries of `expected` of
per-key drift contributions, a missing key contributing 1.0 (the final
`if numeric_diffs else 0.5` guard of the source is kept even though the
list is never empty when `expected` is non-empty).
-/
def computeDrift (expected actual : PyDict) : ℚ :=
  if expected.isEmpty then 1/2
  else
    let numeric_diffs := expected.map (fun kv =>
      match lookupVal kv.1 actual with
      | none => 1
      | some actual_val => driftContrib kv.2 actual_val)
    if numeric_diffs.isEmpty then 1/2 else listMean numeric_diffs

/-- `max(set(types), key=types.count)` (scoring.py, line 224): an element
of the set of seen type names maximising its count.  Python's `set`
iteration order is unspecified; the embedding takes the maximiser that
`List.argmax` picks among the distinct names — any tie choice yields the
same count, which is all `_compute_coherence` uses. -/
def mostCommonType (types : List String) : String :=
  (types.dedup.argmax (fun t => types.count t)).getD ""

/--
`EpisodeEvaluator._compute_coherence` (scoring.py, lines 202–232): 0.5 on
an empty mapping; otherwise combines the non-null ratio and the frequency
of the most common runtime type among non-null values, clamped to [0, 1].
-/
def computeCoherence (outputs : PyDict) : ℚ :=
  if outputs.isEmpty then 1/2
  else
    let values := outputs.map (·.2)
    if values.isEmpty then 1/2
    else
      let non_null_count : ℚ := ((values.filter (fun v => !v.isNone)).length : ℚ)
      let null_ratio : ℚ := 1 - non_null_count / (values.length : ℚ)
      let types := (values.filter (fun v => !v.isNone)).map typeName
      let type_consistency : ℚ :=
        if types.isEmpty then 0
        else (types.count (mostCommonType types) : ℚ) / (types.length : ℚ)
      let coherence := (1 - null_ratio) * (1/2) + type_consistency * (1/2)
      min 1 (max 0 coherence)

/-- `str.isspace` whitespace (the ASCII whitespace characters; `str.strip`
with no argument removes exactly these, besides some rarer Unicode
whitespace not occurring here). -/
def pyIsSpace (c : Char) : Bool :=
  c = ' ' ∨ c = '\t' ∨ c = '\n' ∨ c = '\r' ∨ c = '\x0b' ∨ c = '\x0c'

/-- Python `not s.strip()`: the string strips to empty, i.e. every
character is whitespace (vacuously true for the empty string). -/
def stripIsEmpty (s : String) : Bool := s.toList.all pyIsSpace

/-- Python `x or default` for an optional argument whose falsy values are
detected by `isFalsy` (`None` and the empty string / empty dict are falsy). -/
def pyOr {α : Type} (isFalsy : α → Bool) (v : Option α) (default : α) : α :=
  match v with
  | some x => if isFalsy x then default else x
  | none => default

/-- The default `token_counts` of `Episode.__init__`
(`{"input_tokens": 0, "output_tokens": 0}`). -/
def defaultTokenCounts : List (String × Int) :=
  [("input_tokens", 0), ("output_tokens", 0)]

/-- `d.get(k, 0)` on the integer-valued `token_counts` dict. -/
def getIntOrZero (k : String) (d : List (String × Int)) : Int :=
  match (d.find? (fun kv => kv.1 = k)).map (·.2) with
  | some n => n
  | none => 0

/--
The `Episode` object (episode.py): identification and payload fields,
plus the mutable metrics state.  The three metric sequences of the
`metrics` dict become three list fields; `created_at` /
`last_execution_at` are the ISO timestamp strings the source stores.
-/
structure Episode where
  episode_id : String
  inputs : PyDict
  expected_outputs : PyDict
  prompt : String
  model_name : String
  token_counts : List (String × Int)
  metadata : PyDict
  created_at : String
  metrics_drift : List ℚ
  metrics_coherence : List ℚ
  metrics_match : List ℚ
  execution_count : Nat
  last_execution_at : Option String

/--
`Episode.__init__` (episode.py, lines 26–53).  `uuid.uuid4()` and
`datetime.utcnow()` are impure and become the `freshId` / `now`
parameters; `episode_id or str(uuid.uuid4())`, `token_counts or {...}` and
`metadata or {}` use Python truthiness (`None` and empty values are
falsy).
-/
def Episode.init (inputs expected_outputs : PyDict) (prompt model_name : String)
    (episode_id : Option String) (token_counts : Option (List (String × Int)))
    (metadata : Option PyDict) (freshId now : String) : Episode where
  episode_id := pyOr (· = "") episode_id freshId
  inputs := inputs
  expected_outputs := expected_outputs
  prompt := prompt
  model_name := model_name
  token_counts := pyOr List.isEmpty token_counts defaultTokenCounts
  metadata := pyOr List.isEmpty metadata []
  created_at := now
  metrics_drift := []
  metrics_coherence := []
  metrics_match := []
  execution_count := 0
  last_execution_at := none

/-- `Episode.record_execution` (episode.py, lines 55–68): appends one score
to each of the three metric sequences, increments `execution_count` and
stamps `last_execution_at`. -/
def Episode.record_execution (e : Episode) (match_result drift coherence : ℚ)
    (now : String) : Episode :=
  { e with
    metrics_match := e.metrics_match ++ [match_result]
    metrics_drift := e.metrics_drift ++ [drift]
    metrics_coherence := e.metrics_coherence ++ [coherence]
    execution_count := e.execution_count + 1
    last_execution_at := some now }

/-- `Episode.reset_metrics` (episode.py, lines 70–78): clears the three
sequences, the counter and the last-execution timestamp. -/
def Episode.reset_metrics (e : Episode) : Episode :=
  { e with
    metrics_drift := []
    metrics_coherence := []
    metrics_match := []
    execution_count := 0
    last_execution_at := none }

/-- The plain-mapping representation of an episode handled by
`Episode.to_dict` / `Episode.from_dict`.  Fields that `from_dict` reads
with `data.get(...)` or guards with `if ... in data` are `Option`s, so an
absent key is representable. -/
structure EpisodeData where
  episode_id : Option String
  inputs : PyDict
  expected_outputs : PyDict
  prompt : String
  model_name : String
  token_counts : Option (List (String × Int))
  metadata : Option PyDict
  created_at : Option String
  metrics : Option (List ℚ × List ℚ × List ℚ)
  execution_count : Option Nat
  last_execution_at : Option (Option String)

/-- `Episode.to_dict` (episode.py, lines 99–113): every field of the
episode is serialised, the `metrics` dict as the triple
(drift, coherence, match). -/
def Episode.to_dict (e : Episode) : EpisodeData where
  episode_id := some e.episode_id
  inputs := e.inputs
  expected_outputs := e.expected_outputs
  prompt := e.prompt
  model_name := e.model_name
  token_counts := some e.token_counts
  metadata := some e.metadata
  created_at := some e.created_at
  metrics := some (e.metrics_drift, e.metrics_coherence, e.metrics_match)
  execution_count := some e.execution_count
  last_execution_at := some e.last_execution_at

/-- `Episode.from_dict` (episode.py, lines 119–138): reconstructs via
`Episode.__init__` (so `created_at` is stamped afresh — the serialised
`created_at` is never read), then restores `metrics`, `execution_count`
and `last_execution_at` when those keys are present. -/
def Episode.from_dict (data : EpisodeData) (freshId now : String) : Episode :=
  let e := Episode.init data.inputs data.expected_outputs data.prompt
    data.model_name data.episode_id data.token_counts data.metadata freshId now
  let e := match data.metrics with
    | some m =>
      { e with metrics_drift := m.1, metrics_coherence := m.2.1,
               metrics_match := m.2.2 }
    | none => e
  let e := match data.execution_count with
    | some n => { e with execution_count := n }
    | none => e
  match data.last_execution_at with
  | some t => { e with last_execution_at := t }
  | none => e

/-- The distinct `AssertionError` outcomes of the population-level
assertions of invariants.py: the empty-list error, the no-data error, and
the threshold violation carrying the computed value and the threshold. -/
inductive AssertErr where
  | emptyEpisodeList : AssertErr
  | noExecutions : AssertErr
  | thresholdViolated : ℚ → ℚ → AssertErr
deriving DecidableEq, Repr

/-- `_validate_episode_id` (invariants.py, lines 35–38): fails unless the
id is a string with at least one non-whitespace character.  The
`isinstance` test is carried by the typed field. -/
def validateEpisodeId (episode_id : String) : Except String Unit :=
  if stripIsEmpty episode_id then
    .error "episode_id must be a non-empty string"
  else .ok ()

/-- `_validate_inputs` (invariants.py, lines 41–47). -/
def validateInputs (inputs : PyDict) : Except String Unit :=
  if inputs.isEmpty then .error "inputs cannot be empty" else .ok ()

/-- `_validate_outputs` (invariants.py, lines 50–56). -/
def validateOutputs (out : PyDict) : Except String Unit :=
  if out.isEmpty then .error "expected_outputs cannot be empty" else .ok ()

/-- `_validate_prompt` (invariants.py, lines 59–62). -/
def validatePrompt (prompt : String) : Except String Unit :=
  if stripIsEmpty prompt then
    .error "prompt must be a non-empty string"
  else .ok ()

/-- `_validate_model_name` (invariants.py, lines 65–68). -/
def validateModelName (model_name : String) : Except String Unit :=
  if stripIsEmpty model_name then
    .error "model_name must be a non-empty string"
  else .ok ()

/-- `_validate_token_counts` (invariants.py, lines 71–81): both required
keys present and every value a non-negative integer (integerness is
carried by the typed field). -/
def validateTokenCounts (token_counts : List (String × Int)) : Except String Unit :=
  if !((token_counts.any (fun kv => kv.1 = "input_tokens")) &&
       (token_counts.any (fun kv => kv.1 = "output_tokens"))) then
    .error "token_counts must contain input_tokens and output_tokens"
  else if token_counts.any (fun kv => kv.2 < 0) then
    .error "token_counts values must be non-negative integers"
  else .ok ()

/-- `validate_episode` (invariants.py, lines 12–32): the six structural
checks in their fixed order; the first failure is reported. -/
def validate_episode (e : Episode) : Except String Bool :=
  match validateEpisodeId e.episode_id with
  | .error msg => .error msg
  | .ok _ =>
    match validateInputs e.inputs with
    | .error msg => .error msg
    | .ok _ =>
      match validateOutputs e.expected_outputs with
      | .error msg => .error msg
      | .ok _ =>
        match validatePrompt e.prompt with
        | .error msg => .error msg
        | .ok _ =>
          match validateModelName e.model_name with
          | .error msg => .error msg
          | .ok _ =>
            match validateTokenCounts e.token_counts with
            | .error msg => .error msg
            | .ok _ => .ok true

/-- The loop of `assert_idempotent` (invariants.py, lines 101–108):
accumulates `(total_matches, total_executions)` over the episodes,
skipping episodes whose `match` sequence is empty (they contribute
nothing either way). -/
def idempotencyTotals (episodes : List Episode) : Nat × Nat :=
  episodes.foldl
    (fun acc ep =>
      if ep.metrics_match.isEmpty then acc
      else (acc.1 + ep.metrics_match.countP (fun m => m = 1),
            acc.2 + ep.metrics_match.length))
    (0, 0)

/-- `assert_idempotent` (invariants.py, lines 84–118): empty list and
zero total executions each fail with their own error; otherwise the
fraction of recorded match scores equal to exactly 1.0 must reach the
threshold. -/
def assert_idempotent (episodes : List Episode) (threshold : ℚ) :
    Except AssertErr Bool :=
  if episodes.isEmpty then .error .emptyEpisodeList
  else
    let totals := idempotencyTotals episodes
    if totals.2 = 0 then .error .noExecutions
    else
      let idempotency_rate : ℚ := (totals.1 : ℚ) / (totals.2 : ℚ)
      if idempotency_rate ≥ threshold then .ok true
      else .error (.thresholdViolated idempotency_rate threshold)

/-- One call made to the Metrics Sink (the `MetricsTracker` of
metrics.py), as an event of the trace the evaluator produces.  The
payloads are the scalar data the evaluator passes; the
`inputs/expected/actual` hash metadata of `log_evaluation_result` is
collaborator-side observability data and is not modelled. -/
inductive SinkEvent where
  | startRun : String → String → SinkEvent
  | logEvaluationResult : String → ℚ → ℚ → ℚ → List (String × Int) → SinkEvent
  | endRun : SinkEvent
  | logBatchEvaluation : String → Nat → ℚ → ℚ → ℚ → Int → SinkEvent
deriving DecidableEq, Repr

/-- Which sink calls raise, modelling a failing tracking backend.
`end_run` never raises: `MetricsTracker.end_run` (metrics.py, lines
52–58) swallows its own exceptions. -/
structure SinkFailure where
  startRunFails : Bool
  logEvaluationResultFails : Bool
  logBatchEvaluationFails : Bool

/-- A sink whose calls all succeed. -/
def noSinkFailure : SinkFailure :=
  { startRunFails := false, logEvaluationResultFails := false,
    logBatchEvaluationFails := false }

/--
`EpisodeEvaluator.evaluate_episode` (scoring.py, lines 25–73): computes
the three scores, records them into the episode, then calls the sink
(`start_run`, `log_evaluation_result`, `end_run`) with no exception
handling — a raising sink call aborts the function there, the calls after
it never happening.  Returns the mutated episode, the trace of sink calls
that were invoked (a raising call is still an invoked call), and either
the `(match_result, {drift, coherence, match_result})` result or the
propagated error.
-/
def evaluate_episode (fail : SinkFailure) (episode : Episode)
    (actual_outputs : PyDict) (now : String) :
    Episode × List SinkEvent × Except String (ℚ × ℚ × ℚ) :=
  let match_result := computeMatch episode.expected_outputs actual_outputs
  let drift := computeDrift episode.expected_outputs actual_outputs
  let coherence := computeCoherence actual_outputs
  let episode := episode.record_execution match_result drift coherence now
  let trace := [SinkEvent.startRun episode.episode_id episode.model_name]
  if fail.startRunFails then (episode, trace, .error "start_run failed")
  else
    let trace := trace ++ [SinkEvent.logEvaluationResult episode.episode_id
      match_result drift coherence episode.token_counts]
    if fail.logEvaluationResultFails then
      (episode, trace, .error "log_evaluation_result failed")
    else
      (episode, trace ++ [SinkEvent.endRun], .ok (match_result, drift, coherence))

/-- One entry of the `results` list of a batch summary. -/
structure EpisodeResult where
  episode_id : String
  match_result : ℚ
  drift : ℚ
  coherence : ℚ
deriving DecidableEq, Repr

/-- The `summary` sub-dict of the batch summary.  `statistics.stdev` is a
library routine producing an (irrational, float-rounded) square root; the
evaluator is parametrised over it and only the `0.0` short-circuit for
fewer than two samples lives in `evaluate_batch` itself. -/
structure BatchStats where
  avg_drift : ℚ
  avg_coherence : ℚ
  idempotency_rate : ℚ
  total_tokens : Int
  drift_stdev : ℚ
  coherence_stdev : ℚ
deriving DecidableEq, Repr

/-- The mapping returned by `evaluate_batch`; on the empty-input early
return the `summary` key is absent (`none`). -/
structure BatchSummary where
  batch_id : String
  episodes_count : Nat
  results : List EpisodeResult
  summary : Option BatchStats
deriving DecidableEq, Repr

/-- The loop of `evaluate_batch` (scoring.py, lines 99–111): evaluates the
pairs in order, collecting the per-episode results, the three score lists
and the token total; an error propagating out of `evaluate_episode`
aborts the loop (and the whole batch call).  Returns the mutated
episodes, the concatenated sink trace, and the collected data. -/
def evalBatchLoop (fail : SinkFailure) (now : String) :
    List (Episode × PyDict) →
    List Episode × List SinkEvent ×
      Except String (List EpisodeResult × List ℚ × List ℚ × List ℚ × Int)
  | [] => ([], [], .ok ([], [], [], [], 0))
  | (episode, actual_outputs) :: rest =>
    let step := evaluate_episode fail episode actual_outputs now
    let ep := step.1
    match step.2.2 with
    | .error msg => ([ep], step.2.1, .error msg)
    | .ok scores =>
      let tok := getIntOrZero "input_tokens" ep.token_counts +
        getIntOrZero "output_tokens" ep.token_counts
      let restOut := evalBatchLoop fail now rest
      match restOut.2.2 with
      | .error msg => (ep :: restOut.1, step.2.1 ++ restOut.2.1, .error msg)
      | .ok collected =>
        (ep :: restOut.1, step.2.1 ++ restOut.2.1,
         .ok ({ episode_id := ep.episode_id, match_result := scores.1,
                drift := scores.2.1, coherence := scores.2.2 } :: collected.1,
              scores.1 :: collected.2.1, scores.2.1 :: collected.2.2.1,
              scores.2.2 :: collected.2.2.2.1, tok + collected.2.2.2.2))

/--
`EpisodeEvaluator.evaluate_batch` (scoring.py, lines 75–140): an empty
input list returns the `episodes_count = 0` summary without touching the
sink; otherwise the pairs are evaluated in order, the aggregates are
computed, `log_batch_evaluation` is called on the sink, and the summary
is returned.  `stdevFn` stands for `statistics.stdev`, only consulted
when a score list has more than one element.
-/
def evaluate_batch (fail : SinkFailure) (stdevFn : List ℚ → ℚ)
    (episodes_with_outputs : List (Episode × PyDict))
    (batch_id : String) (now : String) :
    List Episode × List SinkEvent × Except String BatchSummary :=
  if episodes_with_outputs.isEmpty then
    ([], [], .ok { batch_id := batch_id, episodes_count := 0, results := [],
                   summary := none })
  else
    let loopOut := evalBatchLoop fail now episodes_with_outputs
    match loopOut.2.2 with
    | .error msg => (loopOut.1, loopOut.2.1, .error msg)
    | .ok collected =>
      let batch_results := collected.1
      let match_results := collected.2.1
      let drifts := collected.2.2.1
      let coherences := collected.2.2.2.1
      let total_tokens := collected.2.2.2.2
      let avg_drift := listMean drifts
      let avg_coherence := listMean coherences
      let idempotency_rate : ℚ :=
        ((match_results.countP (fun r => r = 1)) : ℚ) / (match_results.length : ℚ)
      let batchEvent := SinkEvent.logBatchEvaluation batch_id
        episodes_with_outputs.length avg_drift avg_coherence idempotency_rate
        total_tokens
      if fail.logBatchEvaluationFails then
        (loopOut.1, loopOut.2.1 ++ [batchEvent], .error "log_batch_evaluation failed")
      else
        (loopOut.1, loopOut.2.1 ++ [batchEvent],
         .ok { batch_id := batch_id
               episodes_count := episodes_with_outputs.length
               results := batch_results
               summary := some
                 { avg_drift := avg_drift
                   avg_coherence := avg_coherence
                   idempotency_rate := idempotency_rate
                   total_tokens := total_tokens
                   drift_stdev := if drifts.length > 1 then stdevFn drifts else 0
                   coherence_stdev :=
                     if coherences.length > 1 then stdevFn coherences else 0 } })

/-! ## General lemmas about dict lookup -/

/-- In a dict with distinct keys, looking up the key of one of its entries
returns that entry's value. -/
theorem lookupVal_of_mem {l : PyDict} (hl : (l.map Prod.fst).Nodup)
    {kv : String × Val} (hmem : kv ∈ l) : lookupVal kv.1 l = some kv.2 := by
  induction l with
  | nil => cases hmem
  | cons hd tl ih =>
    rw [List.map_cons, List.nodup_cons] at hl
    rcases List.mem_cons.mp hmem with heq | htl
    · subst heq
      simp [lookupVal, List.find?]
    · have hne : hd.1 ≠ kv.1 := by
        intro h
        exact hl.1 (h ▸ List.mem_map_of_mem Prod.fst htl)
      simpa [lookupVal, List.find?, hne] using ih hl.2 htl

/-- `k in d` holds exactly when the lookup succeeds. -/
theorem keyMem_eq_isSome_lookupVal (k : String) (d : PyDict) :
    keyMem k d = (lookupVal k d).isSome := by
  induction d with
  | nil => rfl
  | cons hd tl ih =>
    by_cases h : hd.1 = k
    · simp [keyMem, lookupVal, List.find?, h]
    · simpa [keyMem, lookupVal, List.find?, h] using ih

/-- A successful lookup names a key of the dict. -/
theorem keyMem_of_lookupVal_eq_some {k : String} {d : PyDict} {v : Val}
    (h : lookupVal k d = some v) : keyMem k d = true := by
  rw [keyMem_eq_isSome_lookupVal, h]
  rfl

/-- A successful lookup returns a value of one of the entries. -/
theorem lookupVal_mem {k : String} {d : PyDict} {v : Val}
    (h : lookupVal k d = some v) : (k, v) ∈ d := by
  unfold lookupVal at h
  obtain ⟨kv, hfind, hv⟩ := Option.map_eq_some'.mp h
  have hmem := List.mem_of_find?_eq_some hfind
  have hkey : kv.1 = k := by simpa using List.find?_some hfind
  have hkv : (k, v) = kv := by
    obtain ⟨k1, v1⟩ := kv
    cases hkey
    cases hv
    rfl
  rw [hkv]
  exact hmem

/-! ## C1: the match classification -/

/-- The `matching_keys` count the way the specification words it: the
number of keys of `expected` present in both mappings with Python-equal
values. -/
def matchingKeyCount (expected actual : PyDict) : Nat :=
  ((expected.map Prod.fst).filter (fun k =>
    match lookupVal k expected, lookupVal k actual with
    | some ve, some va => pyEq ve va
    | _, _ => false)).length

/-- `_compute_match` as the specification describes it: 0.5 for an empty
side, 1.0 for Python-equal mappings, and otherwise 0.0 / 1.0 / 0.5 for
no / all / some keys matching out of `max(|expected|, |actual|)`. -/
def matchSpec (expected actual : PyDict) : ℚ :=
  if expected.isEmpty || actual.isEmpty then 1/2
  else if pyDictEq expected actual then 1
  else
    let matching_keys := matchingKeyCount expected actual
    let total_keys := max expected.length actual.length
    if matching_keys = 0 then 0
    else if matching_keys = total_keys then 1
    else 1/2

/-- On dicts with distinct keys the source's entry-wise matching count is
the specification's key-wise count. -/
theorem matchingKeyCount_eq (expected actual : PyDict)
    (hexp : (expected.map Prod.fst).Nodup) :
    (expected.filter (fun kv =>
      keyMem kv.1 actual &&
        match lookupVal kv.1 actual with
        | some v => pyEq kv.2 v
        | none => false)).length = matchingKeyCount expected actual := by
  unfold matchingKeyCount
  rw [List.filter_map, List.length_map]
  apply congrArg List.length
  apply List.filter_congr
  intro kv hkv
  have hself : lookupVal kv.1 expected = some kv.2 := lookupVal_of_mem hexp hkv
  show (keyMem kv.1 actual && _) = _
  rw [keyMem_eq_isSome_lookupVal]
  cases hact : lookupVal kv.1 actual with
  | none => simp [hself, hact]
  | some va => simp [hself, hact]

/--
C1.  `_compute_match` returns 0.5 when either mapping is empty, 1.0 when
the mappings are Python-equal, and otherwise classifies by the number of
keys present in both with equal values against
`max(|expected|, |actual|)`: 0.0 for none, 1.0 for all, 0.5 otherwise —
including the four concrete cases of the specification.
-/
theorem compute_match_meets_spec :
    (∀ expected actual : PyDict, (expected.map Prod.fst).Nodup →
      computeMatch expected actual = matchSpec expected actual) ∧
    computeMatch [("a", .vnum 1 .nint)] [("a", .vnum 1 .nint)] = 1 ∧
    computeMatch [("a", .vnum 1 .nint)] [("a", .vnum 2 .nint)] = 0 ∧
    computeMatch [("a", .vnum 1 .nint), ("b", .vnum 2 .nint)]
      [("a", .vnum 1 .nint), ("b", .vnum 3 .nint)] = 1/2 ∧
    computeMatch [] [("a", .vnum 1 .nint)] = 1/2 := by
  refine ⟨?_, by rfl, by rfl, by rfl, by rfl⟩
  intro expected actual hexp
  unfold computeMatch matchSpec
  rw [matchingKeyCount_eq expected actual hexp]

/-- Witness for C1 at a concrete input. -/
theorem compute_match_meets_spec_witness :
    computeMatch [("a", .vnum 1 .nint), ("b", .vnum 2 .nint)]
        [("a", .vnum 1 .nint), ("b", .vnum 3 .nint)] =
      matchSpec [("a", .vnum 1 .nint), ("b", .vnum 2 .nint)]
        [("a", .vnum 1 .nint), ("b", .vnum 3 .nint)] :=
  compute_match_meets_spec.1 _ _ (by decide)

/-! ## C2: a 1.0 match score never coexists with extra unmatched keys -/

/-- "Key `k` matches": `k` is present in both mappings with Python-equal
values (the per-key condition of the `matching_keys` count). -/
def isMatchedKey (expected actual : PyDict) (k : String) : Bool :=
  match lookupVal k expected, lookupVal k actual with
  | some ve, some va => pyEq ve va
  | _, _ => false

/-- Unfolding of `pyEqSub`: every entry of `l` finds a Python-equal value
in `d`. -/
theorem pyEqSub_eq_true_iff (l : List (String × Val)) (d : PyDict) :
    pyEqSub l d = true ↔
      ∀ kv ∈ l, ∃ v', lookupVal kv.1 d = some v' ∧ pyEq kv.2 v' = true := by
  induction l with
  | nil => simp [pyEqSub]
  | cons hd tl ih =>
    obtain ⟨k, v⟩ := hd
    rw [pyEqSub, Bool.and_eq_true, ih]
    cases hlook : lookupVal k d with
    | none => simp [hlook]
    | some v' => simp [hlook]

/-- Unfolding of dict equality: equal lengths and every entry of the left
dict matched in the right one. -/
theorem pyDictEq_eq_true_iff (e a : PyDict) :
    pyDictEq e a = true ↔
      e.length = a.length ∧
        ∀ kv ∈ e, ∃ v', lookupVal kv.1 a = some v' ∧ pyEq kv.2 v' = true := by
  rw [pyDictEq, pyEq, ← pyEqSub_eq_true_iff]
  simp

/-- A list of distinct elements contained in another list is no longer
than it. -/
theorem nodup_subset_length_le {α : Type} [DecidableEq α] {l₁ l₂ : List α}
    (h1 : l₁.Nodup) (hsub : l₁ ⊆ l₂) : l₁.length ≤ l₂.length := by
  calc l₁.length = l₁.toFinset.card := (List.toFinset_card_of_nodup h1).symm
    _ ≤ l₂.toFinset.card := Finset.card_le_card (fun x hx => by
        rw [List.mem_toFinset] at hx ⊢
        exact hsub hx)
    _ ≤ l₂.length := l₂.toFinset_card_le

/-- A successful lookup means the key occurs among the dict's keys. -/
theorem mem_keys_of_lookupVal_eq_some {k : String} {d : PyDict} {v : Val}
    (h : lookupVal k d = some v) : k ∈ d.map Prod.fst :=
  List.mem_map_of_mem Prod.fst (lookupVal_mem h)

/-- If every entry of `e` is matched in `a` and `a` is not larger than
`e`, the two dicts are Python-equal (given distinct keys in `e`). -/
theorem pyDictEq_of_all_matched {e a : PyDict} (he : (e.map Prod.fst).Nodup)
    (hlen : a.length ≤ e.length)
    (hall : ∀ kv ∈ e, ∃ v', lookupVal kv.1 a = some v' ∧ pyEq kv.2 v' = true) :
    pyDictEq e a = true := by
  rw [pyDictEq_eq_true_iff]
  refine ⟨?_, hall⟩
  have hsub : e.map Prod.fst ⊆ a.map Prod.fst := by
    intro k hk
    obtain ⟨kv, hkv, rfl⟩ := List.mem_map.mp hk
    obtain ⟨v', hv', _⟩ := hall kv hkv
    exact mem_keys_of_lookupVal_eq_some hv'
  have hle : e.length ≤ a.length := by
    have := nodup_subset_length_le he hsub
    simpa using this
  omega

/-- Every key of `a` is matched when the dicts are Python-equal (with
distinct keys on both sides). -/
theorem isMatchedKey_of_pyDictEq {e a : PyDict}
    (he : (e.map Prod.fst).Nodup) (ha : (a.map Prod.fst).Nodup)
    (hdicteq : pyDictEq e a = true) {kv : String × Val} (hkv : kv ∈ a) :
    isMatchedKey e a kv.1 = true := by
  obtain ⟨hlen, hall⟩ := (pyDictEq_eq_true_iff e a).mp hdicteq
  have hsub : e.map Prod.fst ⊆ a.map Prod.fst := by
    intro k hk
    obtain ⟨kv', hkv', rfl⟩ := List.mem_map.mp hk
    obtain ⟨v', hv', _⟩ := hall kv' hkv'
    exact mem_keys_of_lookupVal_eq_some hv'
  have hkeys : (e.map Prod.fst).toFinset = (a.map Prod.fst).toFinset := by
    apply Finset.eq_of_subset_of_card_le
    · intro x hx
      rw [List.mem_toFinset] at hx ⊢
      exact hsub hx
    · rw [List.toFinset_card_of_nodup ha, List.toFinset_card_of_nodup he]
      simpa using Nat.le_of_eq hlen.symm
  have hmemE : kv.1 ∈ e.map Prod.fst := by
    have hmem : kv.1 ∈ (a.map Prod.fst).toFinset := by
      rw [List.mem_toFinset]
      exact List.mem_map_of_mem Prod.fst hkv
    rw [← hkeys, List.mem_toFinset] at hmem
    exact hmem
  obtain ⟨kve, hkve, hfst⟩ := List.mem_map.mp hmemE
  have hlookE : lookupVal kv.1 e = some kve.2 := by
    rw [← hfst]
    exact lookupVal_of_mem he hkve
  have hlookA : lookupVal kv.1 a = some kv.2 := lookupVal_of_mem ha hkv
  obtain ⟨v', hv', hpy⟩ := hall kve hkve
  rw [hfst, hlookA] at hv'
  cases hv'
  rw [isMatchedKey, hlookE, hlookA]
  exact hpy

/-- Core of C2: on dicts with distinct keys, `_compute_match` cannot
return 1.0 when `actual` has a key that is not matched in `expected`. -/
theorem computeMatch_ne_one_of_unmatched {e a : PyDict}
    (he : (e.map Prod.fst).Nodup) (ha : (a.map Prod.fst).Nodup)
    {kv : String × Val} (hkv : kv ∈ a)
    (hun : isMatchedKey e a kv.1 = false) :
    computeMatch e a ≠ 1 := by
  simp only [computeMatch]
  split_ifs with hempty hdicteq hzero hfull
  · norm_num
  · exact absurd (isMatchedKey_of_pyDictEq he ha hdicteq hkv)
      (by rw [hun]; exact Bool.false_ne_true)
  · norm_num
  · -- a full matching count would make the dicts Python-equal,
    -- contradicting the branch taken.
    exfalso
    have hle : (e.filter (fun kv =>
        keyMem kv.1 a &&
          match lookupVal kv.1 a with
          | some v => pyEq kv.2 v
          | none => false)).length ≤ e.length := by
      simpa using List.length_filter_le _ e
    have hlenE : (e.filter (fun kv =>
        keyMem kv.1 a &&
          match lookupVal kv.1 a with
          | some v => pyEq kv.2 v
          | none => false)).length = e.length := by
      have h1 := Nat.le_max_left e.length a.length
      omega
    have hlenA : a.length ≤ e.length := by
      have h2 := Nat.le_max_right e.length a.length
      omega
    have hallp := List.filter_eq_self.mp
      ((List.filter_sublist e).eq_of_length hlenE)
    have hall : ∀ kv ∈ e, ∃ v', lookupVal kv.1 a = some v' ∧ pyEq kv.2 v' = true := by
      intro kv hkvm
      have hp := hallp kv hkvm
      rw [Bool.and_eq_true] at hp
      cases hlook : lookupVal kv.1 a with
      | none =>
        rw [hlook] at hp
        exact absurd hp.2 (by simp)
      | some v' =>
        refine ⟨v', rfl, ?_⟩
        rw [hlook] at hp
        exact hp.2
    exact hdicteq (pyDictEq_of_all_matched he hlenA hall)
  · norm_num

/--
C2 counterexample.  The claimed pair does not exist: for mappings with
distinct keys (as Python dicts are), no non-empty `expected`/`actual` with
an extra unmatched key in `actual` makes `_compute_match` return 1.0.
-/
theorem superset_match_counterexample :
    ¬ ∃ expected actual : PyDict,
      (expected.map Prod.fst).Nodup ∧ (actual.map Prod.fst).Nodup ∧
      ¬ expected.isEmpty ∧ ¬ actual.isEmpty ∧
      (∃ kv ∈ actual, isMatchedKey expected actual kv.1 = false) ∧
      computeMatch expected actual = 1 := by
  rintro ⟨e, a, he, ha, -, -, ⟨kv, hkv, hun⟩, hone⟩
  exact computeMatch_ne_one_of_unmatched he ha hkv hun hone

/--
C2 amended.  Whenever `actual` carries a key that is not matched in
`expected`, `_compute_match` does not return 1.0: in the partial-match
branch `matching_keys == total_keys` would force the two dicts to be
Python-equal, so that branch's 1.0 case is unreachable and a superset
with extra unmatched keys never scores 1.0.
-/
theorem match_one_requires_no_unmatched_keys (expected actual : PyDict)
    (he : (expected.map Prod.fst).Nodup) (ha : (actual.map Prod.fst).Nodup)
    (kv : String × Val) (hkv : kv ∈ actual)
    (hun : isMatchedKey expected actual kv.1 = false) :
    computeMatch expected actual ≠ 1 :=
  computeMatch_ne_one_of_unmatched he ha hkv hun

/-- Witness for the amended C2 at a concrete input: `actual` has the extra
unmatched key `"b"`. -/
theorem match_one_requires_no_unmatched_keys_witness :
    computeMatch [("a", Val.vnum 1 .nint)]
      [("b", Val.vnum 2 .nint), ("a", Val.vnum 1 .nint)] ≠ 1 :=
  match_one_requires_no_unmatched_keys _ _ (by decide) (by decide)
    ("b", Val.vnum 2 .nint) (List.mem_cons_self _ _) (by decide)

/-! ## C3: the drift score -/

/-- The numeric per-key drift the way the specification words it: 1.0 for
a zero expectation with nonzero actual, 0.0 when both are zero, otherwise
the relative error capped at 1.0. -/
def driftContribSpec (qe qa : ℚ) : ℚ :=
  if qe = 0 ∧ qa ≠ 0 then 1
  else if qe = 0 ∧ qa = 0 then 0
  else min 1 (|qa - qe| / |qe|)

/-- The specification's per-key drift contribution for a key `k` of
`expected`: 1.0 when `k` is absent from `actual`; the capped relative
error when both values are numeric; 0.0 / 1.0 for equal / differing
values otherwise.  (The inner `none` arm is unreachable since `k` ranges
over keys of `expected`.) -/
def driftKeySpec (expected actual : PyDict) (k : String) : ℚ :=
  match lookupVal k actual with
  | none => 1
  | some va =>
    match lookupVal k expected with
    | none => 1
    | some ve =>
      match ve, va with
      | .vnum qe _, .vnum qa _ => driftContribSpec qe qa
      | ve, va => if pyEq ve va then 0 else 1

/-- `_compute_drift` as the specification describes it: 0.5 for an empty
`expected`, otherwise the arithmetic mean of the per-key contributions
over the keys of `expected`. -/
def driftSpec (expected actual : PyDict) : ℚ :=
  if expected.isEmpty then 1/2
  else listMean ((expected.map Prod.fst).map (driftKeySpec expected actual))

/-- Mapping preserves emptiness. -/
theorem isEmpty_map {α β : Type} (f : α → β) (l : List α) :
    (l.map f).isEmpty = l.isEmpty := by
  cases l <;> rfl

/-- The source's per-key contribution agrees with the specification's. -/
theorem driftContrib_eq_spec (ve va : Val) :
    driftContrib ve va =
      match ve, va with
      | .vnum qe _, .vnum qa _ => driftContribSpec qe qa
      | ve, va => if pyEq ve va then 0 else 1 := by
  cases ve with
  | vnum qe te =>
    cases va with
    | vnum qa ta =>
      show (if qe = 0 then (if qa ≠ 0 then 1 else 0)
        else min 1 (|qa - qe| / |qe|)) = driftContribSpec qe qa
      by_cases h1 : qe = 0 <;> by_cases h2 : qa = 0 <;>
        simp [driftContribSpec, h1, h2]
    | vnone => rfl
    | vstr s => rfl
    | vlist l => rfl
    | vdict d => rfl
  | vnone => cases va <;> rfl
  | vstr s => cases va <;> rfl
  | vlist l => cases va <;> rfl
  | vdict d => cases va <;> rfl

/--
C3.  On an `expected` with distinct keys, `_compute_drift` is the mean of
the specification's per-key contributions over the keys of `expected`
(0.5 when `expected` is empty), and the three concrete cases of the
specification hold.
-/
theorem compute_drift_meets_spec :
    (∀ expected actual : PyDict, (expected.map Prod.fst).Nodup →
      computeDrift expected actual = driftSpec expected actual) ∧
    computeDrift [("x", .vnum 10 .nint)] [("x", .vnum 10 .nint)] = 0 ∧
    computeDrift [("x", .vnum 10 .nint)] [("x", .vnum 20 .nint)] = 1 ∧
    computeDrift [("x", .vnum 1 .nint), ("y", .vnum 2 .nint)]
      [("x", .vnum 1 .nint)] = 1/2 := by
  refine ⟨?_,
    by simp [computeDrift, driftContrib, lookupVal, listMean] <;> norm_num,
    by simp [computeDrift, driftContrib, lookupVal, listMean] <;> norm_num,
    by simp [computeDrift, driftContrib, lookupVal, listMean] <;> norm_num⟩
  intro expected actual hexp
  unfold computeDrift driftSpec
  by_cases hemp : expected.isEmpty
  · simp [hemp]
  · have hmap : expected.map (fun kv =>
        match lookupVal kv.1 actual with
        | none => 1
        | some actual_val => driftContrib kv.2 actual_val) =
        expected.map (driftKeySpec expected actual ∘ Prod.fst) := by
      apply List.map_congr_left
      intro kv hkv
      have hself : lookupVal kv.1 expected = some kv.2 :=
        lookupVal_of_mem hexp hkv
      show _ = driftKeySpec expected actual kv.1
      rw [driftKeySpec]
      cases hlook : lookupVal kv.1 actual with
      | none => rfl
      | some va =>
        rw [hself]
        exact driftContrib_eq_spec kv.2 va
    simp only [hemp, Bool.false_eq_true, if_false, isEmpty_map, List.map_map]
    rw [hmap]

/-- Witness for C3 at a concrete input. -/
theorem compute_drift_meets_spec_witness :
    computeDrift [("x", Val.vnum 1 .nint), ("y", Val.vnum 2 .nint)]
        [("x", Val.vnum 1 .nint)] =
      driftSpec [("x", Val.vnum 1 .nint), ("y", Val.vnum 2 .nint)]
        [("x", Val.vnum 1 .nint)] :=
  compute_drift_meets_spec.1 _ _ (by decide)

/-! ## C4: the coherence score -/

/-- The number of occurrences of the most frequent element: the maximum,
over the distinct type names seen, of each name's count. -/
def maxTypeCount (types : List String) : Nat :=
  (types.dedup.map (fun t => types.count t)).foldr max 0

/-- `_compute_coherence` as the specification describes it, with the
type-consistency numerator the count of the most frequent type expressed
as a maximum (independent of any tie-break). -/
def coherenceSpec (outputs : PyDict) : ℚ :=
  if outputs.isEmpty then 1/2
  else
    let values := outputs.map (·.2)
    let nonNull := values.filter (fun v => !v.isNone)
    let null_ratio : ℚ := 1 - (nonNull.length : ℚ) / (values.length : ℚ)
    let type_consistency : ℚ :=
      if nonNull.isEmpty then 0
      else (maxTypeCount (nonNull.map typeName) : ℚ) / (nonNull.length : ℚ)
    min 1 (max 0 ((1 - null_ratio) * (1/2) + type_consistency * (1/2)))

/-- Every element of a list of naturals is bounded by the fold of `max`. -/
theorem le_foldr_max {l : List Nat} {x : Nat} (hx : x ∈ l) :
    x ≤ l.foldr max 0 := by
  induction l with
  | nil => cases hx
  | cons hd tl ih =>
    rcases List.mem_cons.mp hx with rfl | htl
    · exact Nat.le_max_left _ _
    · exact le_trans (ih htl) (Nat.le_max_right _ _)

/-- The fold of `max` over naturals is zero or one of the elements. -/
theorem foldr_max_mem (l : List Nat) :
    l.foldr max 0 = 0 ∨ l.foldr max 0 ∈ l := by
  induction l with
  | nil => exact Or.inl rfl
  | cons hd tl ih =>
    rcases Nat.le_total hd (tl.foldr max 0) with h | h
    · rw [List.foldr_cons, Nat.max_eq_right h]
      rcases ih with h0 | hmem
      · exact Or.inl h0
      · exact Or.inr (List.mem_cons_of_mem hd hmem)
    · rw [List.foldr_cons, Nat.max_eq_left h]
      exact Or.inr (List.mem_cons_self hd tl)

/-- The count of the argmax-chosen most common type is exactly the
maximal count — whichever tie-break `max(set(...), key=...)` happens to
make. -/
theorem count_mostCommonType (types : List String) :
    types.count (mostCommonType types) = maxTypeCount types := by
  cases hdd : types.dedup.argmax (fun t => types.count t) with
  | none =>
    have hnil : types.dedup = [] := List.argmax_eq_none.mp hdd
    have : types = [] := (List.dedup_eq_nil _).mp hnil
    subst this
    rfl
  | some m =>
    have hmem : m ∈ types.dedup := List.argmax_mem (by rw [hdd]; rfl)
    have hmc : mostCommonType types = m := by
      rw [mostCommonType, hdd]
      rfl
    rw [hmc]
    apply Nat.le_antisymm
    · exact le_foldr_max (List.mem_map_of_mem _ hmem)
    · rcases foldr_max_mem (types.dedup.map (fun t => types.count t)) with h0 | hin
      · rw [maxTypeCount, h0]
        exact Nat.zero_le _
      · obtain ⟨t, ht, hct⟩ := List.mem_map.mp hin
        rw [maxTypeCount, ← hct]
        exact List.le_of_mem_argmax ht (by rw [hdd]; rfl)

/--
C4.  `_compute_coherence` returns 0.5 on an empty mapping and otherwise
the clamp to [0, 1] of the equal-weight combination of the non-null ratio
and the most-frequent-type frequency among non-null values (0.0 when all
values are null); the result always lies in [0, 1], and the two concrete
cases of the specification hold.
-/
theorem compute_coherence_meets_spec :
    (∀ outputs : PyDict,
      computeCoherence outputs = coherenceSpec outputs ∧
      0 ≤ computeCoherence outputs ∧ computeCoherence outputs ≤ 1) ∧
    computeCoherence [] = 1/2 ∧
    computeCoherence [("a", .vnone), ("b", .vnone)] = 0 := by
  refine ⟨?_, by rfl,
    by simp [computeCoherence, Val.isNone, mostCommonType] <;> norm_num⟩
  intro outputs
  constructor
  · unfold computeCoherence coherenceSpec
    by_cases hemp : outputs.isEmpty
    · simp [hemp]
    · simp only [hemp, Bool.false_eq_true, if_false, isEmpty_map]
      rw [count_mostCommonType]
      simp [List.length_map, isEmpty_map]
  · unfold computeCoherence
    by_cases hemp : outputs.isEmpty
    · simp [hemp]
      norm_num
    · simp only [hemp, Bool.false_eq_true, if_false, isEmpty_map]
      constructor
      · exact le_min (by norm_num) (le_max_left 0 _)
      · exact min_le_left 1 _

/-! ## C5: batch evaluation -/

/-- The scores `evaluate_episode` computes for one (episode, outputs)
pair. -/
def pairMatchScore (p : Episode × PyDict) : ℚ :=
  computeMatch p.1.expected_outputs p.2

/-- The drift score of one pair. -/
def pairDrift (p : Episode × PyDict) : ℚ := computeDrift p.1.expected_outputs p.2

/-- The coherence score of one pair. -/
def pairCoherence (p : Episode × PyDict) : ℚ := computeCoherence p.2

/-- The `results` entry `evaluate_batch` produces for one pair. -/
def pairResult (p : Episode × PyDict) : EpisodeResult where
  episode_id := p.1.episode_id
  match_result := pairMatchScore p
  drift := pairDrift p
  coherence := pairCoherence p

/-- The `input_tokens + output_tokens` contribution of one pair. -/
def pairTokens (p : Episode × PyDict) : Int :=
  getIntOrZero "input_tokens" p.1.token_counts +
    getIntOrZero "output_tokens" p.1.token_counts

/-- The non-failing sink does not fail `start_run`. -/
theorem noSinkFailure_startRunFails : noSinkFailure.startRunFails = false := rfl

/-- The non-failing sink does not fail `log_evaluation_result`. -/
theorem noSinkFailure_logEvaluationResultFails :
    noSinkFailure.logEvaluationResultFails = false := rfl

/-- The non-failing sink does not fail `log_batch_evaluation`. -/
theorem noSinkFailure_logBatchEvaluationFails :
    noSinkFailure.logBatchEvaluationFails = false := rfl

/-- With a non-failing sink, the batch loop evaluates every pair in input
order and collects exactly the per-pair results, score lists and token
total. -/
theorem evalBatchLoop_collects (now : String) (pairs : List (Episode × PyDict)) :
    (evalBatchLoop noSinkFailure now pairs).2.2 =
      .ok (pairs.map pairResult, pairs.map pairMatchScore, pairs.map pairDrift,
           pairs.map pairCoherence, (pairs.map pairTokens).sum) := by
  induction pairs with
  | nil => rfl
  | cons p rest ih =>
    obtain ⟨episode, actual_outputs⟩ := p
    simp only [evalBatchLoop, evaluate_episode, noSinkFailure_startRunFails,
      noSinkFailure_logEvaluationResultFails, Bool.false_eq_true, if_false,
      ih, List.map_cons, List.sum_cons]
    rfl

/--
C5.  With a non-failing sink: an empty batch returns the
`episodes_count = 0` summary with an empty results list and no sink call;
a non-empty batch returns one result per pair in input order (the scores
`evaluate_episode` computes for that pair), and a summary holding the
mean drift, the mean coherence, the fraction of match results exactly
1.0, the token total, and drift/coherence standard deviations that are 0
when fewer than two pairs were evaluated.
-/
theorem evaluate_batch_meets_spec :
    (∀ (stdevFn : List ℚ → ℚ) (batch_id now : String),
      evaluate_batch noSinkFailure stdevFn [] batch_id now =
        ([], [], .ok { batch_id := batch_id, episodes_count := 0,
                       results := [], summary := none })) ∧
    (∀ (stdevFn : List ℚ → ℚ) (pairs : List (Episode × PyDict))
        (batch_id now : String), pairs ≠ [] →
      ∃ stats : BatchStats,
        (evaluate_batch noSinkFailure stdevFn pairs batch_id now).2.2 =
          .ok { batch_id := batch_id, episodes_count := pairs.length,
                results := pairs.map pairResult, summary := some stats } ∧
        stats.avg_drift = listMean (pairs.map pairDrift) ∧
        stats.avg_coherence = listMean (pairs.map pairCoherence) ∧
        stats.idempotency_rate =
          (((pairs.map pairMatchScore).countP (fun r => r = 1)) : ℚ) /
            (pairs.length : ℚ) ∧
        stats.total_tokens = (pairs.map pairTokens).sum ∧
        (pairs.length < 2 →
          stats.drift_stdev = 0 ∧ stats.coherence_stdev = 0)) := by
  constructor
  · intro stdevFn batch_id now
    rfl
  · intro stdevFn pairs batch_id now hne
    have hloop := evalBatchLoop_collects now pairs
    have hemp : pairs.isEmpty = false := by
      cases pairs with
      | nil => exact absurd rfl hne
      | cons p rest => rfl
    refine ⟨{ avg_drift := listMean (pairs.map pairDrift)
              avg_coherence := listMean (pairs.map pairCoherence)
              idempotency_rate :=
                (((pairs.map pairMatchScore).countP (fun r => r = 1)) : ℚ) /
                  (pairs.length : ℚ)
              total_tokens := (pairs.map pairTokens).sum
              drift_stdev :=
                if (pairs.map pairDrift).length > 1
                then stdevFn (pairs.map pairDrift) else 0
              coherence_stdev :=
                if (pairs.map pairCoherence).length > 1
                then stdevFn (pairs.map pairCoherence) else 0 }, ?_, rfl, rfl,
      ?_, rfl, ?_⟩
    · simp only [evaluate_batch, hemp, Bool.false_eq_true, if_false, hloop,
        noSinkFailure_logBatchEvaluationFails, List.length_map]
    · simp [List.length_map]
    · intro hlt
      constructor
      · simp only [List.length_map]
        rw [if_neg (by omega)]
      · simp only [List.length_map]
        rw [if_neg (by omega)]

/-- Witness for C5 at a concrete one-pair batch. -/
theorem evaluate_batch_meets_spec_witness :
    ∃ stats : BatchStats,
      (evaluate_batch noSinkFailure (fun _ => 0)
        [(Episode.init [("q", Val.vstr "a")] [("x", Val.vnum 1 .nint)]
            "p" "m" none none none "id-1" "t0",
          [("x", Val.vnum 1 .nint)])] "b" "t1").2.2 =
        .ok { batch_id := "b", episodes_count := 1,
              results := [(Episode.init [("q", Val.vstr "a")]
                  [("x", Val.vnum 1 .nint)] "p" "m" none none none "id-1" "t0",
                  [("x", Val.vnum 1 .nint)])].map pairResult,
              summary := some stats } ∧
      stats.avg_drift = listMean ([(Episode.init [("q", Val.vstr "a")]
          [("x", Val.vnum 1 .nint)] "p" "m" none none none "id-1" "t0",
          [("x", Val.vnum 1 .nint)])].map pairDrift) ∧
      stats.avg_coherence = listMean ([(Episode.init [("q", Val.vstr "a")]
          [("x", Val.vnum 1 .nint)] "p" "m" none none none "id-1" "t0",
          [("x", Val.vnum 1 .nint)])].map pairCoherence) ∧
      stats.idempotency_rate =
        ((([(Episode.init [("q", Val.vstr "a")] [("x", Val.vnum 1 .nint)]
            "p" "m" none none none "id-1" "t0",
            [("x", Val.vnum 1 .nint)])].map pairMatchScore).countP
          (fun r => r = 1)) : ℚ) / 1 ∧
      stats.total_tokens = ([(Episode.init [("q", Val.vstr "a")]
          [("x", Val.vnum 1 .nint)] "p" "m" none none none "id-1" "t0",
          [("x", Val.vnum 1 .nint)])].map pairTokens).sum ∧
      (1 < 2 → stats.drift_stdev = 0 ∧ stats.coherence_stdev = 0) :=
  evaluate_batch_meets_spec.2 (fun _ => 0) _ "b" "t1" (List.cons_ne_nil _ _)

/-! ## C6: the idempotency assertion -/

/-- The number of recorded match scores equal to exactly 1.0 across all
episodes. -/
def totalMatchScores (episodes : List Episode) : Nat :=
  (episodes.map (fun ep => ep.metrics_match.countP (fun m => m = 1))).sum

/-- The total number of recorded executions across all episodes (the
lengths of the `match` sequences). -/
def totalExecutions (episodes : List Episode) : Nat :=
  (episodes.map (fun ep => ep.metrics_match.length)).sum

/-- The accumulator loop of `assert_idempotent` computes exactly the two
totals (the `if episode.metrics["match"]` guard only skips episodes that
contribute zero to both). -/
theorem idempotencyTotals_eq (episodes : List Episode) :
    idempotencyTotals episodes =
      (totalMatchScores episodes, totalExecutions episodes) := by
  suffices h : ∀ (l : List Episode) (acc : Nat × Nat),
      l.foldl (fun acc ep =>
        if ep.metrics_match.isEmpty then acc
        else (acc.1 + ep.metrics_match.countP (fun m => m = 1),
              acc.2 + ep.metrics_match.length)) acc =
      (acc.1 + totalMatchScores l, acc.2 + totalExecutions l) by
    rw [idempotencyTotals, h]
    simp
  intro l
  induction l with
  | nil => intro acc; simp [totalMatchScores, totalExecutions]
  | cons ep tl ih =>
    intro acc
    by_cases hemp : ep.metrics_match.isEmpty
    · have hnil : ep.metrics_match = [] := by
        cases hm : ep.metrics_match with
        | nil => rfl
        | cons x xs => rw [hm] at hemp; cases hemp
      rw [List.foldl_cons, if_pos hemp, ih]
      simp [totalMatchScores, totalExecutions, hnil]
    · rw [List.foldl_cons, if_neg hemp, ih]
      simp only [totalMatchScores, totalExecutions, List.map_cons,
        List.sum_cons, Prod.mk.injEq]
      constructor <;> omega

/--
C6.  For a non-empty episode list with at least one recorded execution,
`assert_idempotent` succeeds exactly when the fraction of recorded match
scores equal to 1.0 over all recorded executions reaches the threshold,
and otherwise fails with the threshold-violation error carrying that
fraction; the empty list and the zero-executions cases fail with their
own distinct errors.
-/
theorem assert_idempotent_meets_spec :
    (∀ (episodes : List Episode) (threshold : ℚ),
      episodes ≠ [] → 0 < totalExecutions episodes →
      ((assert_idempotent episodes threshold = .ok true ↔
        (totalMatchScores episodes : ℚ) / (totalExecutions episodes : ℚ) ≥
          threshold) ∧
       (¬ ((totalMatchScores episodes : ℚ) / (totalExecutions episodes : ℚ) ≥
          threshold) →
        assert_idempotent episodes threshold =
          .error (.thresholdViolated
            ((totalMatchScores episodes : ℚ) / (totalExecutions episodes : ℚ))
            threshold)))) ∧
    (∀ threshold : ℚ,
      assert_idempotent [] threshold = .error .emptyEpisodeList) ∧
    (∀ (episodes : List Episode) (threshold : ℚ), episodes ≠ [] →
      totalExecutions episodes = 0 →
      assert_idempotent episodes threshold = .error .noExecutions) := by
  refine ⟨?_, fun threshold => rfl, ?_⟩
  · intro episodes threshold hne hpos
    have hemp : episodes.isEmpty = false := by
      cases episodes with
      | nil => exact absurd rfl hne
      | cons e tl => rfl
    rw [assert_idempotent]
    simp only [hemp, Bool.false_eq_true, if_false, idempotencyTotals_eq]
    rw [if_neg (by omega)]
    constructor
    · by_cases hth :
        (totalMatchScores episodes : ℚ) / (totalExecutions episodes : ℚ) ≥
          threshold
      · rw [if_pos hth]
        exact ⟨fun _ => hth, fun _ => rfl⟩
      · rw [if_neg hth]
        exact ⟨fun h => (nomatch h), fun h => absurd h hth⟩
    · intro hth
      rw [if_neg hth]
  · intro episodes threshold hne hzero
    have hemp : episodes.isEmpty = false := by
      cases episodes with
      | nil => exact absurd rfl hne
      | cons e tl => rfl
    rw [assert_idempotent]
    simp only [hemp, Bool.false_eq_true, if_false, idempotencyTotals_eq]
    rw [if_pos hzero]

/-- Witness for C6: a single episode with one recorded perfect match at
the default threshold 0.9. -/
theorem assert_idempotent_meets_spec_witness :
    (assert_idempotent [(Episode.init [("q", Val.vstr "a")]
        [("x", Val.vnum 1 .nint)] "p" "m" none none none "id-1"
        "t0").record_execution 1 0 1 "t1"] (9/10) = .ok true ↔
      ((totalMatchScores [(Episode.init [("q", Val.vstr "a")]
          [("x", Val.vnum 1 .nint)] "p" "m" none none none "id-1"
          "t0").record_execution 1 0 1 "t1"] : ℚ) /
        (totalExecutions [(Episode.init [("q", Val.vstr "a")]
          [("x", Val.vnum 1 .nint)] "p" "m" none none none "id-1"
          "t0").record_execution 1 0 1 "t1"] : ℚ) ≥ 9/10)) ∧
    (¬ ((totalMatchScores [(Episode.init [("q", Val.vstr "a")]
          [("x", Val.vnum 1 .nint)] "p" "m" none none none "id-1"
          "t0").record_execution 1 0 1 "t1"] : ℚ) /
        (totalExecutions [(Episode.init [("q", Val.vstr "a")]
          [("x", Val.vnum 1 .nint)] "p" "m" none none none "id-1"
          "t0").record_execution 1 0 1 "t1"] : ℚ) ≥ 9/10) →
      assert_idempotent [(Episode.init [("q", Val.vstr "a")]
          [("x", Val.vnum 1 .nint)] "p" "m" none none none "id-1"
          "t0").record_execution 1 0 1 "t1"] (9/10) =
        .error (.thresholdViolated
          ((totalMatchScores [(Episode.init [("q", Val.vstr "a")]
            [("x", Val.vnum 1 .nint)] "p" "m" none none none "id-1"
            "t0").record_execution 1 0 1 "t1"] : ℚ) /
          (totalExecutions [(Episode.init [("q", Val.vstr "a")]
            [("x", Val.vnum 1 .nint)] "p" "m" none none none "id-1"
            "t0").record_execution 1 0 1 "t1"] : ℚ)) (9/10))) :=
  assert_idempotent_meets_spec.1 _ (9/10) (List.cons_ne_nil _ _)
    (by decide)

/-! ## C7: synchronized metric appends and reset -/

/-- The episode-state invariant: the execution counter equals the common
length of the three metric sequences. -/
def metricsInvariant (e : Episode) : Prop :=
  e.execution_count = e.metrics_match.length ∧
  e.execution_count = e.metrics_drift.length ∧
  e.execution_count = e.metrics_coherence.length

/-- `record_execution` iterated over a list of score triples (each with
its timestamp). -/
def recordAll (e : Episode) (xs : List ((ℚ × ℚ × ℚ) × String)) : Episode :=
  xs.foldl (fun ep x => ep.record_execution x.1.1 x.1.2.1 x.1.2.2 x.2) e

/-- Iterating `record_execution` adds exactly one element per call to the
counter and to each sequence. -/
theorem recordAll_lengths (xs : List ((ℚ × ℚ × ℚ) × String)) (e : Episode) :
    (recordAll e xs).execution_count = e.execution_count + xs.length ∧
    (recordAll e xs).metrics_match.length =
      e.metrics_match.length + xs.length ∧
    (recordAll e xs).metrics_drift.length =
      e.metrics_drift.length + xs.length ∧
    (recordAll e xs).metrics_coherence.length =
      e.metrics_coherence.length + xs.length := by
  induction xs generalizing e with
  | nil => simp [recordAll]
  | cons x tl ih =>
    obtain ⟨h1, h2, h3, h4⟩ := ih (e.record_execution x.1.1 x.1.2.1 x.1.2.2 x.2)
    have hgoal : recordAll e (x :: tl) =
        recordAll (e.record_execution x.1.1 x.1.2.1 x.1.2.2 x.2) tl := rfl
    rw [hgoal]
    refine ⟨?_, ?_, ?_, ?_⟩
    · rw [h1]
      simp only [Episode.record_execution]
      simp only [List.length_cons]
      omega
    · rw [h2]
      simp only [Episode.record_execution]
      simp only [List.length_append, List.length_cons, List.length_nil]
      omega
    · rw [h3]
      simp only [Episode.record_execution]
      simp only [List.length_append, List.length_cons, List.length_nil]
      omega
    · rw [h4]
      simp only [Episode.record_execution]
      simp only [List.length_append, List.length_cons, List.length_nil]
      omega

/--
C7.  Starting from a freshly constructed Episode, N calls of
`record_execution` leave `execution_count = N` and all three metric
sequences of length N; `reset_metrics` clears the counter and all three
sequences; `record_execution` and `reset_metrics` preserve (and
construction and reset establish) the invariant that `execution_count`
equals the common length of the three sequences.
-/
theorem episode_metrics_meets_spec :
    (∀ (inputs expected_outputs : PyDict) (prompt model_name : String)
       (episode_id : Option String)
       (token_counts : Option (List (String × Int)))
       (metadata : Option PyDict) (freshId now : String)
       (xs : List ((ℚ × ℚ × ℚ) × String)),
      (recordAll (Episode.init inputs expected_outputs prompt model_name
        episode_id token_counts metadata freshId now) xs).execution_count =
          xs.length ∧
      (recordAll (Episode.init inputs expected_outputs prompt model_name
        episode_id token_counts metadata freshId now)
          xs).metrics_match.length = xs.length ∧
      (recordAll (Episode.init inputs expected_outputs prompt model_name
        episode_id token_counts metadata freshId now)
          xs).metrics_drift.length = xs.length ∧
      (recordAll (Episode.init inputs expected_outputs prompt model_name
        episode_id token_counts metadata freshId now)
          xs).metrics_coherence.length = xs.length) ∧
    (∀ e : Episode,
      e.reset_metrics.execution_count = 0 ∧
      e.reset_metrics.metrics_match = [] ∧
      e.reset_metrics.metrics_drift = [] ∧
      e.reset_metrics.metrics_coherence = []) ∧
    (∀ (e : Episode) (m d c : ℚ) (now : String),
      metricsInvariant e → metricsInvariant (e.record_execution m d c now)) ∧
    (∀ e : Episode, metricsInvariant e.reset_metrics) ∧
    (∀ (inputs expected_outputs : PyDict) (prompt model_name : String)
       (episode_id : Option String)
       (token_counts : Option (List (String × Int)))
       (metadata : Option PyDict) (freshId now : String),
      metricsInvariant (Episode.init inputs expected_outputs prompt
        model_name episode_id token_counts metadata freshId now)) := by
  refine ⟨?_, fun e => ⟨rfl, rfl, rfl, rfl⟩, ?_, fun e => ⟨rfl, rfl, rfl⟩,
    fun _ _ _ _ _ _ _ _ _ => ⟨rfl, rfl, rfl⟩⟩
  · intro inputs expected_outputs prompt model_name episode_id token_counts
      metadata freshId now xs
    have h := recordAll_lengths xs (Episode.init inputs expected_outputs
      prompt model_name episode_id token_counts metadata freshId now)
    simpa [Episode.init] using h
  · intro e m d c now hinv
    obtain ⟨h1, h2, h3⟩ := hinv
    refine ⟨?_, ?_, ?_⟩ <;>
      simp only [Episode.record_execution, List.length_append,
        List.length_cons, List.length_nil] <;> omega

/-- Witness for C7: the invariant-preservation part at a freshly
constructed episode and one concrete recording. -/
theorem episode_metrics_meets_spec_witness :
    metricsInvariant ((Episode.init [("q", Val.vstr "a")]
      [("x", Val.vnum 1 .nint)] "p" "m" none none none "id-1"
      "t0").record_execution 1 0 1 "t1") :=
  episode_metrics_meets_spec.2.2.1 _ 1 0 1 "t1" ⟨rfl, rfl, rfl⟩

/-! ## C8: serialization round trip -/

/-- `x or default` keeps any list, since an empty list falls back to the
empty default. -/
theorem pyOr_some_list {α : Type} (l : List α) :
    pyOr List.isEmpty (some l) [] = l := by
  cases l <;> rfl

/--
C8 counterexample.  The round trip does not restore `created_at`:
`from_dict` rebuilds the episode through `__init__`, which stamps a fresh
timestamp, so reconstructing at time `"t1"` an episode created at `"t0"`
yields a different episode.
-/
theorem episode_roundtrip_counterexample :
    Episode.from_dict (Episode.init [("q", Val.vstr "a")]
        [("x", Val.vnum 1 .nint)] "p" "m" (some "id-1") none none
        "fresh" "t0").to_dict "fresh2" "t1" ≠
      Episode.init [("q", Val.vstr "a")] [("x", Val.vnum 1 .nint)] "p" "m"
        (some "id-1") none none "fresh" "t0" := by
  intro h
  have hca := congrArg Episode.created_at h
  have h1 : (Episode.from_dict (Episode.init [("q", Val.vstr "a")]
      [("x", Val.vnum 1 .nint)] "p" "m" (some "id-1") none none
      "fresh" "t0").to_dict "fresh2" "t1").created_at = "t1" := rfl
  have h2 : (Episode.init [("q", Val.vstr "a")] [("x", Val.vnum 1 .nint)]
      "p" "m" (some "id-1") none none "fresh" "t0").created_at = "t0" := rfl
  rw [h1, h2] at hca
  exact absurd hca (by decide)

/--
C8 amended.  For an episode with a non-empty id and non-empty
`token_counts` (as construction guarantees), `to_dict` followed by
`from_dict` restores `episode_id`, `inputs`, `expected_outputs`,
`prompt`, `model_name`, `token_counts`, `metadata`, the three metric
sequences, `execution_count` and `last_execution_at` — but `created_at`
is stamped with the reconstruction time, not round-tripped.
Reconstructing from a mapping without `metrics` or `execution_count`
yields empty sequences and a zero counter.
-/
theorem episode_roundtrip_amended :
    (∀ (e : Episode) (freshId now : String),
      e.episode_id ≠ "" → ¬ e.token_counts.isEmpty = true →
      (Episode.from_dict e.to_dict freshId now).episode_id = e.episode_id ∧
      (Episode.from_dict e.to_dict freshId now).inputs = e.inputs ∧
      (Episode.from_dict e.to_dict freshId now).expected_outputs =
        e.expected_outputs ∧
      (Episode.from_dict e.to_dict freshId now).prompt = e.prompt ∧
      (Episode.from_dict e.to_dict freshId now).model_name = e.model_name ∧
      (Episode.from_dict e.to_dict freshId now).token_counts =
        e.token_counts ∧
      (Episode.from_dict e.to_dict freshId now).metadata = e.metadata ∧
      (Episode.from_dict e.to_dict freshId now).metrics_match =
        e.metrics_match ∧
      (Episode.from_dict e.to_dict freshId now).metrics_drift =
        e.metrics_drift ∧
      (Episode.from_dict e.to_dict freshId now).metrics_coherence =
        e.metrics_coherence ∧
      (Episode.from_dict e.to_dict freshId now).execution_count =
        e.execution_count ∧
      (Episode.from_dict e.to_dict freshId now).last_execution_at =
        e.last_execution_at ∧
      (Episode.from_dict e.to_dict freshId now).created_at = now) ∧
    (∀ (data : EpisodeData) (freshId now : String),
      data.metrics = none → data.execution_count = none →
      (Episode.from_dict data freshId now).metrics_match = [] ∧
      (Episode.from_dict data freshId now).metrics_drift = [] ∧
      (Episode.from_dict data freshId now).metrics_coherence = [] ∧
      (Episode.from_dict data freshId now).execution_count = 0) := by
  constructor
  · intro e freshId now hid htok
    have htok' : e.token_counts.isEmpty = false := by
      cases h : e.token_counts.isEmpty
      · rfl
      · exact absurd h htok
    refine ⟨?_, rfl, rfl, rfl, rfl, ?_, ?_, rfl, rfl, rfl, rfl, rfl, rfl⟩
    · show pyOr (fun s => s = "") (some e.episode_id) freshId = e.episode_id
      simp [pyOr, hid]
    · show pyOr List.isEmpty (some e.token_counts) defaultTokenCounts =
        e.token_counts
      simp [pyOr, htok']
    · show pyOr List.isEmpty (some e.metadata) [] = e.metadata
      exact pyOr_some_list e.metadata
  · intro data freshId now hm he
    cases hl : data.last_execution_at <;>
      simp [Episode.from_dict, hm, he, hl, Episode.init]

/-- Witness for the amended C8 at a concrete episode. -/
theorem episode_roundtrip_amended_witness :
    (Episode.from_dict (Episode.init [("q", Val.vstr "a")]
        [("x", Val.vnum 1 .nint)] "p" "m" (some "id-1") none none
        "fresh" "t0").to_dict "fresh2" "t1").episode_id =
      (Episode.init [("q", Val.vstr "a")] [("x", Val.vnum 1 .nint)] "p" "m"
        (some "id-1") none none "fresh" "t0").episode_id ∧
    (Episode.from_dict (Episode.init [("q", Val.vstr "a")]
        [("x", Val.vnum 1 .nint)] "p" "m" (some "id-1") none none
        "fresh" "t0").to_dict "fresh2" "t1").created_at = "t1" :=
  have h := episode_roundtrip_amended.1
    (Episode.init [("q", Val.vstr "a")] [("x", Val.vnum 1 .nint)] "p" "m"
      (some "id-1") none none "fresh" "t0") "fresh2" "t1"
    (by decide) (by decide)
  ⟨h.1, h.2.2.2.2.2.2.2.2.2.2.2.2⟩

/-! ## C9: the sink run is not closed when logging fails -/

/-- A sink whose `log_evaluation_result` raises (and nothing else). -/
def logEvalFailure : SinkFailure where
  startRunFails := false
  logEvaluationResultFails := true
  logBatchEvaluationFails := false

/--
C9.  When the sink's `log_evaluation_result` raises, `evaluate_episode`
invokes `start_run` but never `end_run`: the call sequence has no
`try/finally`, so the error propagates with the run left open — against
the requirement that `end_run` always follow `start_run`.
-/
theorem evaluate_episode_missing_end_run :
    ∀ (episode : Episode) (actual_outputs : PyDict) (now : String),
      SinkEvent.startRun episode.episode_id episode.model_name ∈
        (evaluate_episode logEvalFailure episode actual_outputs now).2.1 ∧
      SinkEvent.endRun ∉
        (evaluate_episode logEvalFailure episode actual_outputs now).2.1 ∧
      (evaluate_episode logEvalFailure episode actual_outputs now).2.2 =
        .error "log_evaluation_result failed" := by
  intro episode actual_outputs now
  refine ⟨?_, ?_, rfl⟩
  · simp [evaluate_episode, logEvalFailure, Episode.record_execution]
  · simp [evaluate_episode, logEvalFailure, Episode.record_execution]

/-! ## C10: whitespace-only strings are rejected -/

/-- A non-empty string all of whose characters are whitespace — non-empty,
yet stripping it yields the empty string. -/
def whitespaceOnly (s : String) : Prop :=
  s ≠ "" ∧ ∀ c ∈ s.toList, pyIsSpace c = true

instance (s : String) : Decidable (whitespaceOnly s) := by
  unfold whitespaceOnly
  infer_instance

/-- A whitespace-only string strips to empty. -/
theorem stripIsEmpty_of_whitespaceOnly {s : String} (h : whitespaceOnly s) :
    stripIsEmpty s = true := by
  rw [stripIsEmpty]
  exact List.all_eq_true.mpr h.2

/--
C10.  `validate_episode` rejects (with `InvalidEpisode`) every episode
whose `episode_id`, `prompt` or `model_name` consists only of whitespace
characters, even though such a string — like `" "` — is non-empty: the
checks demand at least one non-whitespace character, stricter than plain
non-emptiness.
-/
theorem validate_episode_rejects_blank_strings :
    (∀ e : Episode,
      whitespaceOnly e.episode_id ∨ whitespaceOnly e.prompt ∨
        whitespaceOnly e.model_name →
      ∃ msg, validate_episode e = .error msg) ∧
    whitespaceOnly " " := by
  refine ⟨?_, by decide⟩
  intro e hb
  unfold validate_episode
  cases h1 : validateEpisodeId e.episode_id with
  | error msg => exact ⟨msg, rfl⟩
  | ok u1 =>
    cases h2 : validateInputs e.inputs with
    | error msg => exact ⟨msg, rfl⟩
    | ok u2 =>
      cases h3 : validateOutputs e.expected_outputs with
      | error msg => exact ⟨msg, rfl⟩
      | ok u3 =>
        cases h4 : validatePrompt e.prompt with
        | error msg => exact ⟨msg, rfl⟩
        | ok u4 =>
          cases h5 : validateModelName e.model_name with
          | error msg => exact ⟨msg, rfl⟩
          | ok u5 =>
            exfalso
            rcases hb with hb | hb | hb
            · rw [validateEpisodeId,
                if_pos (stripIsEmpty_of_whitespaceOnly hb)] at h1
              exact Except.noConfusion h1
            · rw [validatePrompt,
                if_pos (stripIsEmpty_of_whitespaceOnly hb)] at h4
              exact Except.noConfusion h4
            · rw [validateModelName,
                if_pos (stripIsEmpty_of_whitespaceOnly hb)] at h5
              exact Except.noConfusion h5

/-- Witness for C10: a concrete episode whose prompt is the whitespace
string `" "`. -/
theorem validate_episode_rejects_blank_strings_witness :
    ∃ msg, validate_episode (Episode.init [("q", Val.vstr "a")]
      [("x", Val.vnum 1 .nint)] " " "m" (some "id-1") none none
      "fresh" "t0") = .error msg :=
  validate_episode_rejects_blank_strings.1 _ (Or.inr (Or.inl (by decide)))
